import Mathlib

/-!
Verification of the rfp-analyzer core against its specification.

This file gives a shallow embedding, in Lean 4, of the parts of the
`rfp_analyzer` Python code base that the claims of the specification speak about:

* `src/llm/output_parser.py`      — `StructuredOutputParser`
* `src/chunking/strategies.py`    — `HierarchicalChunkingStrategy`
* `src/retrieval/reranker.py`     — `ReRanker`
* `src/retrieval/context_enricher.py` — `ContextEnricher`
* `src/retrieval/pipeline.py`     — `RetrievalPipeline`
* `src/vectorstore/chroma_store.py`   — `ChromaVectorStore.similarity_search`
* `src/graph/nodes.py`, `src/graph/workflow.py` — the analysis workflow

Modelling conventions:
* Python `str` is Lean `String` (ASCII behaviour for `lower`/`strip`).
* Python floats are modelled as `ℚ` (exact arithmetic; the code only
  multiplies, divides and compares scores, so no claim depends on binary
  rounding).
* Python exceptions are modelled with `Except PyErr`; a function that the
  source wraps in `try/except` returns an `Except` value.
* External collaborators (the vector index, the generative model) are
  parameters of the embedded functions, as the spec declares them external contracts.
* The Python standard library `json.loads` is modelled by an executable
  recursive-descent JSON reader (`json_loads`) covering the JSON grammar
  without string escapes and without `NaN`/`Infinity` literals; inputs
  outside that subset are rejected.  Every universally quantified theorem
  below holds on all parse outcomes, so no conclusion depends on the
  boundary of this subset; concrete counterexample inputs lie inside it.
-/

namespace RFP

/-! ### Character and string helpers -/

/-- The left-brace character, written via its code point. -/
def lbrace : Char := Char.ofNat 123

/-- The right-brace character. -/
def rbrace : Char := Char.ofNat 125

/-- The double-quote character. -/
def dquote : Char := Char.ofNat 34

/-- The single-quote character. -/
def squote : Char := Char.ofNat 39

/-- The backtick character. -/
def btick : Char := Char.ofNat 96

/-- ASCII whitespace as the Python `str.strip` / regex `\s` sees it
(space, tab, newline, carriage return, form feed, vertical tab). -/
def isPyWs (c : Char) : Bool :=
  c = ' ' || c = '\t' || c = '\n' || c = '\r' || c = Char.ofNat 11 || c = Char.ofNat 12

/-- Python `str.strip()` (ASCII whitespace). -/
def pyStrip (s : String) : String :=
  ⟨((s.data.dropWhile isPyWs).reverse.dropWhile isPyWs).reverse⟩

/-- Python `str.lower()` (ASCII model). -/
def pyLower (s : String) : String :=
  ⟨s.data.map Char.toLower⟩

/-- Python slicing `s[:n]` on a string. -/
def pyTake (n : Nat) (s : String) : String :=
  ⟨s.data.take n⟩

/-- Membership test `needle in hay` on Python strings: `needle` occurs as a
contiguous substring of `hay` (the empty string occurs in every string). -/
def strContains (hay needle : String) : Bool :=
  hay.data.tails.any (fun t => needle.data.isPrefixOf t)

/-- First index at which `needle` occurs in `hay`, scanning left to right
(Python `str.find` without the `-1` convention: `none` when absent). -/
def strIndexOf (hay needle : List Char) : Option Nat :=
  (List.range (hay.length + 1)).find? (fun i => needle.isPrefixOf (hay.drop i))

/-- Python truthiness of a `str | None` value: `None` and `""` are falsy. -/
def strFalsy (o : Option String) : Bool :=
  o.getD "" = ""

/-- Python `str.split(sep)` for a one-character separator (the only form
the embedded code needs: `"\n"`, `","`, `"."`). -/
def splitOnChar (sep : Char) : List Char → List (List Char)
  | [] => [[]]
  | c :: rest =>
    let r := splitOnChar sep rest
    if c = sep then [] :: r
    else
      match r with
      | h :: t => (c :: h) :: t
      | [] => [[c]]

/-- Model of `splitOnChar` on strings. -/
def pySplit (sep : Char) (s : String) : List String :=
  (splitOnChar sep s.data).map (fun l => (⟨l⟩ : String))

/-! ### JSON values and a model of `json.loads` -/

/-- A JSON value as produced by the Python `json.loads`: objects are
association lists in source order (duplicate keys possible; the Python
`dict` keeps the last binding, see `objGet`). -/
inductive JVal where
  | jnull : JVal
  | jbool : Bool → JVal
  | jnum  : ℚ → JVal
  | jstr  : String → JVal
  | jarr  : List JVal → JVal
  | jobj  : List (String × JVal) → JVal

/-- Lookup in a JSON object with Python `dict` semantics: for duplicate
keys the last binding wins. -/
def objGet (kvs : List (String × JVal)) (k : String) : Option JVal :=
  (kvs.filter (fun p => p.1 = k)).getLast? |>.map (·.2)

/-- Python `dict.get(k, d)`. -/
def objGetD (kvs : List (String × JVal)) (k : String) (d : JVal) : JVal :=
  (objGet kvs k).getD d

/-- Expect a literal character sequence at the head of the input. -/
def expectLit : List Char → List Char → Option (List Char)
  | [], s => some s
  | _ :: _, [] => none
  | c :: cs, d :: ds => if c = d then expectLit cs ds else none

/-- Take the leading run of decimal digits. -/
def spanDigits (s : List Char) : List Char × List Char :=
  (s.takeWhile Char.isDigit, s.dropWhile Char.isDigit)

/-- Numeric value of a digit run. -/
def natOfDigits (ds : List Char) : Nat :=
  ds.foldl (fun a c => a * 10 + (c.toNat - 48)) 0

/-- Read a JSON number (RFC 8259 grammar: optional minus, integer part
without leading zeros, optional fraction, optional exponent). -/
def jreadNum (s : List Char) : Option (ℚ × List Char) :=
  let signed : Bool × List Char :=
    match s with
    | c :: r => if c = '-' then (true, r) else (false, s)
    | [] => (false, s)
  match spanDigits signed.2 with
  | ([], _) => none
  | (ds, r1) =>
    if ds.length > 1 && ds.headD '0' = '0' then none
    else
      let ip : ℚ := (natOfDigits ds : ℚ)
      let fracRead : Option (ℚ × List Char) :=
        match r1 with
        | '.' :: r2 =>
          match spanDigits r2 with
          | ([], _) => none
          | (fs, r3) => some (ip + (natOfDigits fs : ℚ) / ((10 : ℚ) ^ fs.length), r3)
        | _ => some (ip, r1)
      match fracRead with
      | none => none
      | some (q1, r4) =>
        let expRead : Option (ℚ × List Char) :=
          match r4 with
          | c :: r5 =>
            if c = 'e' || c = 'E' then
              let esigned : Bool × List Char :=
                match r5 with
                | d :: r6 => if d = '-' then (true, r6) else if d = '+' then (false, r6) else (false, r5)
                | [] => (false, r5)
              match spanDigits esigned.2 with
              | ([], _) => none
              | (es, r7) =>
                let e : ℤ := if esigned.1 then -(natOfDigits es : ℤ) else (natOfDigits es : ℤ)
                some (q1 * (10 : ℚ) ^ e, r7)
            else some (q1, r4)
          | [] => some (q1, r4)
        match expRead with
        | none => none
        | some (q2, r8) => some (if signed.1 then -q2 else q2, r8)

/-- Read a JSON string body after the opening quote.  Escape sequences and
control characters are outside the modelled subset and rejected. -/
def jreadStr : List Char → Option (String × List Char)
  | [] => none
  | c :: r =>
    if c = dquote then some ("", r)
    else if c = '\\' || c.toNat < 32 then none
    else match jreadStr r with
      | some (s, rest) => some (⟨c :: s.data⟩, rest)
      | none => none

mutual

/-- Read one JSON value (fuel-bounded recursive descent). -/
def jread (fuel : Nat) (s : List Char) : Option (JVal × List Char) :=
  match fuel with
  | 0 => none
  | f + 1 =>
    let s := s.dropWhile isPyWs
    match s with
    | [] => none
    | c :: rest =>
      if c = 'n' then (expectLit "ull".data rest).map (fun r => (JVal.jnull, r))
      else if c = 't' then (expectLit "rue".data rest).map (fun r => (JVal.jbool true, r))
      else if c = 'f' then (expectLit "alse".data rest).map (fun r => (JVal.jbool false, r))
      else if c = dquote then (jreadStr rest).map (fun p => (JVal.jstr p.1, p.2))
      else if c = '[' then
        match (rest.dropWhile isPyWs) with
        | ']' :: r => some (JVal.jarr [], r)
        | _ =>
          match jread f rest with
          | some (v, r1) =>
            match jreadArrRest f r1 with
            | some (vs, r2) => some (JVal.jarr (v :: vs), r2)
            | none => none
          | none => none
      else if c = lbrace then
        match (rest.dropWhile isPyWs) with
        | d :: r =>
          if d = rbrace then some (JVal.jobj [], r)
          else
            match jreadMember f rest with
            | some (kv, r1) =>
              match jreadObjRest f r1 with
              | some (kvs, r2) => some (JVal.jobj (kv :: kvs), r2)
              | none => none
            | none => none
        | [] => none
      else (jreadNum s).map (fun p => (JVal.jnum p.1, p.2))

/-- Read the continuation of a JSON array after one element. -/
def jreadArrRest (fuel : Nat) (s : List Char) : Option (List JVal × List Char) :=
  match fuel with
  | 0 => none
  | f + 1 =>
    match s.dropWhile isPyWs with
    | ']' :: r => some ([], r)
    | ',' :: r =>
      match jread f r with
      | some (v, r1) =>
        match jreadArrRest f r1 with
        | some (vs, r2) => some (v :: vs, r2)
        | none => none
      | none => none
    | _ => none

/-- Read one `"key": value` member of a JSON object. -/
def jreadMember (fuel : Nat) (s : List Char) : Option ((String × JVal) × List Char) :=
  match fuel with
  | 0 => none
  | f + 1 =>
    match s.dropWhile isPyWs with
    | c :: r =>
      if c = dquote then
        match jreadStr r with
        | some (k, r1) =>
          match r1.dropWhile isPyWs with
          | ':' :: r2 =>
            match jread f r2 with
            | some (v, r3) => some ((k, v), r3)
            | none => none
          | _ => none
        | none => none
      else none
    | [] => none

/-- Read the continuation of a JSON object after one member. -/
def jreadObjRest (fuel : Nat) (s : List Char) : Option (List (String × JVal) × List Char) :=
  match fuel with
  | 0 => none
  | f + 1 =>
    match s.dropWhile isPyWs with
    | c :: r =>
      if c = rbrace then some ([], r)
      else if c = ',' then
        match jreadMember f r with
        | some (kv, r1) =>
          match jreadObjRest f r1 with
          | some (kvs, r2) => some (kv :: kvs, r2)
          | none => none
        | none => none
      else none
    | [] => none

end

/-- Model of Python `json.loads`: parse a whole string as a single JSON
document (leading and trailing whitespace allowed), `none` on failure. -/
def json_loads (s : String) : Option JVal :=
  match jread (2 * s.length + 8) s.data with
  | some (v, rest) => if rest.dropWhile isPyWs = [] then some v else none
  | none => none

/-! ### Python exceptions -/

/-- The exception kinds that can flow through `StructuredOutputParser.parse`
and the workflow.  Only the `ValueError` raised by the code of the repository itself
carries its exact message; for exceptions raised inside libraries
(`TypeError`, `AttributeError`, the pydantic `ValidationError`) the textual
`str(e)` is abbreviated to the class name — no claim depends on those
texts. -/
inductive PyErr where
  | valueError (msg : String)
  | typeError
  | attributeError
  | validationError
  deriving Repr, DecidableEq

/-- The `str(e)` text interpolated into the parse-failure reasoning. -/
def PyErr.message : PyErr → String
  | .valueError m => m
  | .typeError => "TypeError"
  | .attributeError => "AttributeError"
  | .validationError => "ValidationError"

/-! ### Response models (src/models/responses.py)

`ExtractedRequirement` and `AnalysisResponse` are pydantic models; their
constructors validate field types and the `confidence` bounds `[0, 100]`.
The fields `retrieved_chunks`, `processing_time_ms` and `timestamp` of
`AnalysisResponse` are never set by the parser or the workflow nodes and
are omitted. -/

structure ExtractedRequirement where
  requirement_id : String
  title : String
  description : String
  «section» : String
  page_number : Option Int
  priority : Option String
  category : Option String
  related_requirements : List String
  deriving Repr, DecidableEq

structure AnalysisResponse where
  extracted_requirements : List ExtractedRequirement
  reasoning : String
  gaps_or_conflicts : List String
  confidence : ℚ
  uncertainties : List String
  query : String
  deriving Repr, DecidableEq

/-- Pydantic construction of `AnalysisResponse` from already-typed values:
only the `confidence` range constraint can still fail. -/
def mkAnalysisResponse (reqs : List ExtractedRequirement) (reasoning : String)
    (gaps : List String) (conf : ℚ) (unc : List String) (query : String) :
    Except PyErr AnalysisResponse :=
  if 0 ≤ conf ∧ conf ≤ 100 then
    .ok ⟨reqs, reasoning, gaps, conf, unc, query⟩
  else .error .validationError

/-! ### Rendering of JSON values as Python `str()` text

Needed for the defensive fallbacks `str(req_data)` in
`_parse_requirements`.  Non-integer numbers are rendered as `num/den`;
no claim depends on this text. -/

/-- Decimal-or-fraction rendering of a rational. -/
def ratStr (q : ℚ) : String :=
  if q.den = 1 then toString q.num else toString q.num ++ "/" ++ toString q.den

/-- Join with `", "`, as Python renders list/dict items. -/
def joinComma (parts : List String) : String :=
  String.intercalate ", " parts

mutual

/-- Python `repr()` of a `json.loads` value. -/
def pyReprJ : JVal → String
  | .jnull => "None"
  | .jbool true => "True"
  | .jbool false => "False"
  | .jnum q => ratStr q
  | .jstr s => ⟨squote :: s.data⟩ ++ ⟨[squote]⟩
  | .jarr xs => "[" ++ joinComma (pyReprList xs) ++ "]"
  | .jobj kvs => "\x7b" ++ joinComma (pyReprKVs kvs) ++ "\x7d"

/-- Model of `repr()` of each element of a list. -/
def pyReprList : List JVal → List String
  | [] => []
  | x :: xs => pyReprJ x :: pyReprList xs

/-- Model of `repr()` of each `key: value` pair of a dict. -/
def pyReprKVs : List (String × JVal) → List String
  | [] => []
  | (k, v) :: rest => (⟨squote :: k.data⟩ ++ ⟨[squote]⟩ ++ ": " ++ pyReprJ v) :: pyReprKVs rest

end

/-- Python `str()`: like `repr()` except that a top-level string is bare. -/
def pyStrJ : JVal → String
  | .jstr s => s
  | v => pyReprJ v

/-! ### StructuredOutputParser (src/llm/output_parser.py) -/

namespace StructuredOutputParser

/-- Zero-padded id `REQ-{n:03d}`. -/
def reqAutoId (idx : Nat) : String :=
  let n := idx + 1
  "REQ-" ++ (if n < 10 then "00" ++ toString n else if n < 100 then "0" ++ toString n else toString n)

/-- The fixed synonym map `priority_map` with its `.get(key, key)`
fallback: unrecognized values pass through. -/
def priorityMapGet (l : String) : String :=
  if l = "high" || l = "critical" || l = "mandatory" then "high"
  else if l = "medium" || l = "moderate" || l = "normal" then "medium"
  else if l = "low" || l = "optional" || l = "nice-to-have" then "low"
  else l

/-- Model of `_normalize_priority` on a Python `str | None` argument: falsy input
(absent or empty string) becomes `None`; otherwise the lowercased,
stripped value is looked up in the synonym map. -/
def normalize_priority : Option String → Option String
  | none => none
  | some s => if s = "" then none else some (priorityMapGet (pyStrip (pyLower s)))

/-- Python truthiness of a `json.loads` value. -/
def pyTruthy : JVal → Bool
  | .jnull => false
  | .jbool b => b
  | .jnum q => q ≠ 0
  | .jstr s => s ≠ ""
  | .jarr xs => !xs.isEmpty
  | .jobj kvs => !kvs.isEmpty

/-- Model of `_normalize_priority` applied to the raw JSON field value: a truthy
non-string raises `AttributeError` at `.lower()`, which `parse` catches in
its outer handler. -/
def normalizePriorityJ : Option JVal → Except PyErr (Option String)
  | none => .ok none
  | some v =>
    if !pyTruthy v then .ok none
    else match v with
      | .jstr s => .ok (some (priorityMapGet (pyStrip (pyLower s))))
      | _ => .error .attributeError

/-- Integer-string coercion for the lax pydantic `int | None` fields. -/
def parseIntStr (s : String) : Option Int :=
  match s.data with
  | '-' :: ds => if ds ≠ [] && ds.all Char.isDigit then some (-(natOfDigits ds : ℤ)) else none
  | ds => if ds ≠ [] && ds.all Char.isDigit then some (natOfDigits ds : ℤ) else none

/-- Pydantic `str` field: strings only. -/
def asStr : JVal → Option String
  | .jstr s => some s
  | _ => none

/-- Pydantic `str | None` field. -/
def asOptStr : Option JVal → Option (Option String)
  | none => some none
  | some .jnull => some none
  | some (.jstr s) => some (some s)
  | some _ => none

/-- Pydantic `int | None` field (lax: integral numbers and integer
strings). -/
def asOptInt : Option JVal → Option (Option Int)
  | none => some none
  | some .jnull => some none
  | some (.jnum q) => if q.den = 1 then some (some q.num) else none
  | some (.jstr s) => (parseIntStr s).map some
  | some _ => none

/-- Pydantic `list[str]` field. -/
def asStrList : JVal → Option (List String)
  | .jarr xs => xs.mapM asStr
  | _ => none

/-- One item of `_parse_requirements`: `.ok (some r)` appends `r`,
`.ok none` is a caught `ValidationError` (item skipped), `.error` is an
uncaught exception propagating to the outer handler of `parse`. -/
def parseReqItem (idx : Nat) (j : JVal) : Except PyErr (Option ExtractedRequirement) :=
  match j with
  | .jstr s =>
    .ok (some
      { requirement_id := reqAutoId idx
        title := if s.length > 100 then pyTake 100 s else s
        description := s
        «section» := "Extracted from document"
        page_number := none
        priority := none
        category := none
        related_requirements := [] })
  | .jobj kvs =>
    -- Keyword arguments are evaluated before pydantic validation, in source
    -- order.  The `title` default slices the `description` default with
    -- `[:100]`, which raises `TypeError` on an unsliceable value even when
    -- a `title` key is present, since Python evaluates `.get` defaults
    -- eagerly.
    let titleDefaultE : Except PyErr JVal :=
      match objGet kvs "description" with
      | none => .ok (.jstr (pyTake 100 "Untitled Requirement"))
      | some (.jstr s) => .ok (.jstr (pyTake 100 s))
      | some (.jarr xs) => .ok (.jarr (xs.take 100))
      | some _ => .error .typeError
    match titleDefaultE with
    | .error e => .error e
    | .ok titleDefault =>
      match normalizePriorityJ (objGet kvs "priority") with
      | .error e => .error e
      | .ok priorityV =>
        let validated : Option ExtractedRequirement := do
          let rid ← asStr (objGetD kvs "requirement_id" (.jstr (reqAutoId idx)))
          let title ← asStr (objGetD kvs "title" titleDefault)
          let desc ← asStr (objGetD kvs "description" (.jstr (pyStrJ (.jobj kvs))))
          let sec ← asStr (objGetD kvs "section" (.jstr "Unknown"))
          let pg ← asOptInt (objGet kvs "page_number")
          let cat ← asOptStr (objGet kvs "category")
          let rel ← asStrList (objGetD kvs "related_requirements" (.jarr []))
          pure
            { requirement_id := rid, title := title, description := desc
              «section» := sec, page_number := pg, priority := priorityV
              category := cat, related_requirements := rel }
        .ok validated
  | j =>
    .ok (some
      { requirement_id := reqAutoId idx
        title := pyTake 100 (pyStrJ j)
        description := pyStrJ j
        «section» := "Extracted from document"
        page_number := none
        priority := none
        category := none
        related_requirements := [] })

/-- Model of `_parse_requirements` over an enumerated item list: skipped items still
advance the enumeration index. -/
def parseReqList : Nat → List JVal → Except PyErr (List ExtractedRequirement)
  | _, [] => .ok []
  | idx, j :: rest =>
    match parseReqItem idx j with
    | .error e => .error e
    | .ok none => parseReqList (idx + 1) rest
    | .ok (some r) => (parseReqList (idx + 1) rest).map (r :: ·)

/-- Python iteration over the `extracted_requirements` value as
`enumerate` sees it: a list yields its items, a string its characters, a
dict its keys; other values raise `TypeError`. -/
def pyIter : JVal → Except PyErr (List JVal)
  | .jarr xs => .ok xs
  | .jstr s => .ok (s.data.map (fun c => JVal.jstr ⟨[c]⟩))
  | .jobj kvs => .ok (kvs.map (fun p => JVal.jstr p.1))
  | _ => .error .typeError

/-- Pydantic validation of the `reasoning` field (a `str`). -/
def validateReasoning : JVal → Except PyErr String
  | .jstr s => .ok s
  | _ => .error .validationError

/-- Pydantic validation of a `list[str]` field. -/
def validateStrList : JVal → Except PyErr (List String)
  | .jarr xs =>
    match xs.mapM asStr with
    | some l => .ok l
    | none => .error .validationError
  | _ => .error .validationError

/-- Numeric-string coercion for the lax `float` confidence field, modelled
with the JSON number grammar. -/
def parseRatStr (s : String) : Option ℚ :=
  match jreadNum (s.data.dropWhile isPyWs) with
  | some (q, rest) => if rest.dropWhile isPyWs = [] then some q else none
  | none => none

/-- Pydantic validation of the `confidence` field: a number (or numeric
string) within `[0, 100]`. -/
def validateConfidence : JVal → Except PyErr ℚ
  | .jnum q => if 0 ≤ q ∧ q ≤ 100 then .ok q else .error .validationError
  | .jstr s =>
    match parseRatStr s with
    | some q => if 0 ≤ q ∧ q ≤ 100 then .ok q else .error .validationError
    | none => .error .validationError
  | _ => .error .validationError

/-- The successful-extraction body of `parse`: read the fields out of the
JSON value with their source defaults and construct the validated
`AnalysisResponse`.  A non-dict value raises `AttributeError` at
`json_data.get`. -/
def buildResponse (j : JVal) (query : String) : Except PyErr AnalysisResponse :=
  match j with
  | .jobj kvs => do
    let items ← pyIter (objGetD kvs "extracted_requirements" (.jarr []))
    let reqs ← parseReqList 0 items
    let reasoning ← validateReasoning (objGetD kvs "reasoning" (.jstr ""))
    let gaps ← validateStrList (objGetD kvs "gaps_or_conflicts" (.jarr []))
    let conf ← validateConfidence (objGetD kvs "confidence" (.jnum 50))
    let unc ← validateStrList (objGetD kvs "uncertainties" (.jarr []))
    pure
      { extracted_requirements := reqs, reasoning := reasoning
        gaps_or_conflicts := gaps, confidence := conf
        uncertainties := unc, query := query }
  | _ => .error .attributeError

/-! #### `_fix_and_parse_json` and its regex repairs -/

/-- Model of `re.sub(r",\s*" + close, close, s)`: drop a comma standing before a
closing bracket, scanning left to right, non-overlapping. -/
def subCommaClose (close : Char) : Nat → List Char → List Char
  | 0, s => s
  | _, [] => []
  | f + 1, c :: rest =>
    if c = ',' then
      match rest.dropWhile isPyWs with
      | d :: r3 => if d = close then close :: subCommaClose close f r3
                   else c :: subCommaClose close f rest
      | [] => c :: subCommaClose close f rest
    else c :: subCommaClose close f rest

/-- Python regex `\w` (ASCII model). -/
def isWordChar (c : Char) : Bool :=
  c.isAlpha || c.isDigit || c = '_'

/-- Model of the quote-bare-keys repair (`(\w+):` replaced by the same
run wrapped in double quotes, colon kept): wrap a word run standing before a
colon in double quotes.  When a run is not followed by a colon no suffix of
it can match either (the character after any suffix is a word character or
the same non-colon), so scanning resumes after the run. -/
def subQuoteKeys : Nat → List Char → List Char
  | 0, s => s
  | _, [] => []
  | f + 1, c :: rest =>
    if isWordChar c then
      let run := c :: rest.takeWhile isWordChar
      match rest.dropWhile isWordChar with
      | ':' :: r3 => (dquote :: run) ++ (dquote :: ':' :: subQuoteKeys f r3)
      | r2 => run ++ subQuoteKeys f r2
    else c :: subQuoteKeys f rest

/-- The ordered list of textual repairs in `_fix_and_parse_json`. -/
def commonFixes (s : String) : String :=
  let l1 := subCommaClose rbrace s.data.length s.data
  let l2 := subCommaClose ']' l1.length l1
  let l3 := l2.map (fun c => if c = squote then dquote else c)
  ⟨subQuoteKeys l3.length l3⟩

/-- Index of the first occurrence of a character (`str.find`). -/
def firstIdxOf (c : Char) (l : List Char) : Option Nat :=
  (List.range l.length).find? (fun i => l.getD i ' ' = c)

/-- Index of the last occurrence of a character (`str.rfind`). -/
def lastIdxOf (c : Char) (l : List Char) : Option Nat :=
  ((List.range l.length).filter (fun i => l.getD i ' ' = c)).getLast?

/-- The slice `text[start:end+1]` between the first `{` and the last `}`
(an empty string when either is absent, in which case
`fix_and_parse_json` raises before slicing). -/
def braceSlice (text : String) : String :=
  match firstIdxOf lbrace text.data, lastIdxOf rbrace text.data with
  | some st, some en => ⟨(text.data.drop st).take (en + 1 - st)⟩
  | _, _ => ""

/-- The minimal structure returned when the repaired parse still fails:
requirements `[]`, reasoning = the full raw text, confidence 30. -/
def minimalStructure (text : String) : JVal :=
  .jobj
    [("extracted_requirements", .jarr []),
     ("reasoning", .jstr text),
     ("confidence", .jnum 30)]

/-- Model of `_fix_and_parse_json`: slice between the first brace and the last
brace, apply the repairs, and on a still-failing parse return the minimal
structure.  Raises `ValueError` when the text has no opening or no closing
brace (`find`/`rfind` returning -1). -/
def fix_and_parse_json (text : String) : Except PyErr JVal :=
  if (firstIdxOf lbrace text.data).isSome && (lastIdxOf rbrace text.data).isSome then
    match json_loads (commonFixes (braceSlice text)) with
    | some j => .ok j
    | none => .ok (minimalStructure text)
  else .error (.valueError "No JSON object found in text")

/-! #### `_extract_json` and the fenced-block patterns -/

/-- A closing triple backtick. -/
def codeFence : List Char := [btick, btick, btick]

/-- The opener of the tagged pattern. -/
def fenceJsonOpen : List Char := codeFence ++ "json".data

/-- Model of `re.findall` for the fence patterns: each occurrence of `opener` pairs
with the next triple backtick after it; the captured group (the lazy
`([\s\S]*?)` flanked by greedy whitespace) is the enclosed text with
surrounding whitespace stripped.  Scanning resumes after the closing
fence. -/
def fenceAll (opener : List Char) : Nat → List Char → List String
  | 0, _ => []
  | f + 1, s =>
    match strIndexOf s opener with
    | none => []
    | some i =>
      let afterOpen := s.drop (i + opener.length)
      match strIndexOf afterOpen codeFence with
      | none => []
      | some j => pyStrip ⟨afterOpen.take j⟩ :: fenceAll opener f (afterOpen.drop (j + 3))

/-- The candidate substrings produced by the three `json_patterns`, in
order: tagged fences, untagged fences, then the greedy first-brace-to-
last-brace match (one candidate at most). -/
def patternCandidates (text : String) : List String :=
  let l := text.data
  let p1 := fenceAll fenceJsonOpen (l.length + 1) l
  let p2 := fenceAll codeFence (l.length + 1) l
  let p3 :=
    match firstIdxOf lbrace l, lastIdxOf rbrace l with
    | some i, some j => if i < j then [pyStrip ⟨(l.drop i).take (j + 1 - i)⟩] else []
    | _, _ => []
  p1 ++ p2 ++ p3

/-- The pattern loop of `_extract_json`: the first stripped candidate that
starts with a brace and parses as JSON wins. -/
def tryPatterns (text : String) : Option JVal :=
  (patternCandidates text).findSome?
    (fun cand => if cand.data.headD ' ' = lbrace then json_loads cand else none)

/-- Model of `_extract_json`: direct parse, then the pattern loop, then the repair
pass. -/
def extract_json (text : String) : Except PyErr JVal :=
  match json_loads text with
  | some j => .ok j
  | none =>
    match tryPatterns text with
    | some j => .ok j
    | none => fix_and_parse_json text

/-- Model of `StructuredOutputParser.parse`.  The result `Except` models what the
caller observes: `.ok` is a returned `AnalysisResponse`, `.error` would be
an exception escaping `parse`.  The fallback branch mirrors the
`except Exception` handler, whose own `AnalysisResponse(...)` construction
is still pydantic-validated. -/
def parse (llm_output : String) (query : String) : Except PyErr AnalysisResponse :=
  match extract_json llm_output >>= (fun j => buildResponse j query) with
  | .ok r => .ok r
  | .error e =>
    mkAnalysisResponse []
      ("Failed to parse response: " ++ e.message ++ ". Raw output: " ++ pyTake 500 llm_output)
      [] 0 [] query

end StructuredOutputParser

/-! ### HierarchicalChunkingStrategy (src/chunking/strategies.py) -/

namespace HierarchicalChunkingStrategy

/-- One section produced by `_identify_sections` (a Python dict in the
source), with its body already joined. -/
structure DocSection where
  title : String
  number : String
  content : String
  hierarchy : List String
  deriving Repr, DecidableEq

/-- Model of `re.sub(r"\s+", " ", s)`: collapse every whitespace run to one
space. -/
def collapseWs : Nat → List Char → List Char
  | 0, s => s
  | _, [] => []
  | f + 1, c :: rest =>
    if isPyWs c then ' ' :: collapseWs f (rest.dropWhile isPyWs)
    else c :: collapseWs f rest

/-- Match the literal page marker `[Page \d+]` at the head of the input,
returning the remainder. -/
def pageMarkerAt (s : List Char) : Option (List Char) :=
  match expectLit "[Page ".data s with
  | some r1 =>
    match spanDigits r1 with
    | ([], _) => none
    | (_, r2) =>
      match r2 with
      | ']' :: r3 => some r3
      | _ => none
  | none => none

/-- Model of `re.sub(r"\[Page \d+\]", "", s)`. -/
def removePageMarkers : Nat → List Char → List Char
  | 0, s => s
  | _, [] => []
  | f + 1, c :: rest =>
    match pageMarkerAt (c :: rest) with
    | some r => removePageMarkers f r
    | none => c :: removePageMarkers f rest

/-- Model of `_clean_text`: collapse whitespace, remove page markers, strip. -/
def clean_text (text : String) : String :=
  let l1 := collapseWs text.data.length text.data
  pyStrip ⟨removePageMarkers l1.length l1⟩

/-- Greedy `(?:\.\d+)*` continuation of a dotted numeral; safe as maximal
munch because every pattern follows the numeral with whitespace, an
uppercase letter or the end, none of which is a digit or dot. -/
def readDotGroups : Nat → List Char → List Char × List Char
  | 0, s => ([], s)
  | f + 1, s =>
    match s with
    | '.' :: r =>
      match spanDigits r with
      | ([], _) => ([], s)
      | (ds, r2) =>
        let (m, r3) := readDotGroups f r2
        ('.' :: (ds ++ m), r3)
    | _ => ([], s)

/-- Greedy `\d+(?:\.\d+)*`. -/
def readNumeral (s : List Char) : Option (List Char × List Char) :=
  match spanDigits s with
  | ([], _) => none
  | (ds, r) =>
    let (m, r2) := readDotGroups r.length r
    some (ds ++ m, r2)

/-- Try literal alternatives in order with a continuation, as the regex
engine backtracks through `(?:a|b|…)`. -/
def tryAlts (alts : List String) (s : List Char) (k : List Char → Option (List Char)) :
    Option (List Char) :=
  alts.findSome? (fun a => (expectLit a.data s).bind k)

/-- Model of `_match_section`: strip the line and try the three `SECTION_PATTERNS`
in order, returning the captured section number and the title (the whole
stripped line). -/
def match_section (line0 : String) : Option (String × String) :=
  let line := pyStrip line0
  let l := line.data
  let pat1 : Option (List Char) :=
    tryAlts ["SECTION", "Section", "CHAPTER", "Chapter"] l
      (fun r => (readNumeral (r.dropWhile isPyWs)).map (·.1))
  let pat2 : Option (List Char) :=
    (readNumeral l).bind (fun p =>
      match p.2 with
      | c :: rest =>
        if isPyWs c then
          if (rest.dropWhile isPyWs).headD ' ' |>.isUpper then some p.1 else none
        else none
      | [] => none)
  let pat3 : Option (List Char) :=
    tryAlts ["ARTICLE", "Article"] l
      (fun r =>
        match r with
        | c :: _ =>
          if isPyWs c then
            match spanDigits (r.dropWhile isPyWs) with
            | ([], _) => none
            | (ds, _) => some ds
          else none
        | [] => none)
  match pat1 with
  | some n => some (⟨n⟩, line)
  | none =>
    match pat2 with
    | some n => some (⟨n⟩, line)
    | none =>
      match pat3 with
      | some n => some (⟨n⟩, line)
      | none => none

/-- Model of `_build_hierarchy`: cumulative dot-joined prefixes of the section
number. -/
def build_hierarchy (section_number : String) : List String :=
  if section_number = "" then []
  else
    let parts := pySplit '.' section_number
    (List.range parts.length).map (fun i => String.intercalate "." (parts.take (i + 1)))

/-- The line loop of `_identify_sections`: the open section is closed and
emitted when a header line is found (only if its accumulated body list is
non-empty) and at the end of the text. -/
def identifyLoop :
    List String → String → String → List String → List String → List DocSection
  | [], t, n, h, content =>
    if content.isEmpty then [] else [⟨t, n, String.intercalate " " content, h⟩]
  | line :: rest, t, n, h, content =>
    match match_section line with
    | some (num, title) =>
      (if content.isEmpty then [] else [⟨t, n, String.intercalate " " content, h⟩]) ++
        identifyLoop rest title num (build_hierarchy num) []
    | none => identifyLoop rest t n h (content ++ [line])

/-- Model of `_identify_sections`: split the text on newlines and fold the line
loop, starting from the implicit `Introduction` section numbered "0" with
empty hierarchy. -/
def identify_sections (text : String) : List DocSection :=
  identifyLoop (pySplit '\n' text) "Introduction" "0" [] []

/-- The section-identification part of `split`: `split` first runs
`_clean_text` (which collapses newlines into spaces) and then
`_identify_sections` on the cleaned text. -/
def split_sections (text : String) : List DocSection :=
  identify_sections (clean_text text)

end HierarchicalChunkingStrategy

/-! ### Retrieval data model

A LangChain `Document` as the retrieval components read it: its text and
the four metadata keys they access.  Metadata values are flattened strings
in the store; `chunk_id` is read with `.get` (no default), hence optional. -/

structure LCDoc where
  page_content : String
  chunk_id : Option String
  references_sections : String
  section_title : String
  section_hierarchy : String
  deriving Repr, DecidableEq

/-! ### ChromaVectorStore.similarity_search (src/vectorstore/chroma_store.py)

The underlying index query is the external collaborator; its raw
`(document, distance)` result list is a parameter. -/

namespace ChromaVectorStore

/-- Normalize distances to similarities via `1 / (1 + distance)` and drop
results below the threshold when one is given. -/
def similarity_search (raw : List (LCDoc × ℚ)) (score_threshold : Option ℚ) :
    List (LCDoc × ℚ) :=
  let normalized := raw.map (fun p => (p.1, 1 / (1 + p.2)))
  match score_threshold with
  | some t => normalized.filter (fun p => t ≤ p.2)
  | none => normalized

end ChromaVectorStore

/-! ### ReRanker (src/retrieval/reranker.py) -/

namespace ReRanker

/-- Model of `_score_document` after the model call: `reply` is the outcome of
`float(response.content.strip())` — `none` models the `ValueError`/
`TypeError` branch (non-numeric reply), a numeric reply is clamped with
`min(100, max(0, score))`. -/
def score_document (reply : Option ℚ) : ℚ :=
  match reply with
  | some score => min 100 (max 0 score)
  | none => 50

/-- Model of `rerank`: blend each initial score with the model score, sort by the
blended score descending (the Python sort is stable), and truncate when
`top_k` is truthy.  The query, prompt and model call are absorbed into the
collaborator parameter `scoreOf`. -/
def rerank (scoreOf : LCDoc → Option ℚ) (documents : List (LCDoc × ℚ))
    (top_k : Option Nat) : List (LCDoc × ℚ) :=
  if documents.isEmpty then []
  else
    let reranked := documents.map
      (fun p => (p.1, p.2 * (3 / 10) + score_document (scoreOf p.1) / 100 * (7 / 10)))
    let sorted := reranked.insertionSort (fun x y => y.2 ≤ x.2)
    match top_k with
    | some k => if k ≠ 0 then sorted.take k else sorted
    | none => sorted

end ReRanker

/-! ### ContextEnricher (src/retrieval/context_enricher.py) -/

namespace ContextEnricher

/-- Scan driver for `re.findall`: try a match at each position, emit the
capture and resume after the match, else advance one character.  Every
pattern consumes at least one character on success. -/
def findAllScan (matchAt : List Char → Option (String × List Char)) :
    Nat → List Char → List String
  | 0, _ => []
  | _, [] => []
  | f + 1, c :: rest =>
    match matchAt (c :: rest) with
    | some (cap, after) => cap :: findAllScan matchAt f after
    | none => findAllScan matchAt f rest

/-- Greedy `([\d\w\.]+)` capture; maximal munch is exact because the class
has no whitespace and each pattern follows the group with whitespace or
the end. -/
def refGroup (s : List Char) (k : List Char → Option (List Char)) :
    Option (String × List Char) :=
  let run := s.takeWhile (fun c => StructuredOutputParser.isWordChar c || c = '.')
  let rest := s.dropWhile (fun c => StructuredOutputParser.isWordChar c || c = '.')
  if run.isEmpty then none
  else (k rest).map (fun after => (⟨run⟩, after))

/-- Greedy `\s+` (one or more); exact because no continuation begins with
whitespace. -/
def ws1 (s : List Char) (k : List Char → Option (List Char)) : Option (List Char) :=
  match s with
  | c :: _ => if isPyWs c then k (s.dropWhile isPyWs) else none
  | [] => none

/-- Pattern `(?:see|refer to|as described in|per)\s+(?:section|appendix|
article)\s+([\d\w\.]+)` at the head of the input. -/
def crossRef1At (s : List Char) : Option (String × List Char) :=
  match
    HierarchicalChunkingStrategy.tryAlts ["see", "refer to", "as described in", "per"] s
      (fun r1 => ws1 r1 (fun r2 =>
        HierarchicalChunkingStrategy.tryAlts ["section", "appendix", "article"] r2
          (fun r3 => ws1 r3 some)))
  with
  | some atGroup => refGroup atGroup some
  | none => none

/-- Pattern `(?:section|appendix|article)\s+([\d\w\.]+)\s+(?:describes|
specifies|defines|contains)` at the head of the input. -/
def crossRef2At (s : List Char) : Option (String × List Char) :=
  match
    HierarchicalChunkingStrategy.tryAlts ["section", "appendix", "article"] s
      (fun r1 => ws1 r1 some)
  with
  | some atGroup =>
    refGroup atGroup (fun r2 =>
      ws1 r2 (fun r3 =>
        HierarchicalChunkingStrategy.tryAlts
          ["describes", "specifies", "defines", "contains"] r3 some))
  | none => none

/-- Pattern `in accordance with\s+(?:section|appendix)?\s*([\d\w\.]+)` at
the head of the input: the optional keyword is tried first, falling back
to matching the group directly, as the regex engine backtracks. -/
def crossRef3At (s : List Char) : Option (String × List Char) :=
  match expectLit "in accordance with".data s with
  | none => none
  | some r1 =>
    match ws1 r1 some with
    | none => none
    | some r2 =>
      let withKw : Option (String × List Char) :=
        HierarchicalChunkingStrategy.tryAlts ["section", "appendix"] r2 some
          |>.bind (fun r3 => refGroup (r3.dropWhile isPyWs) some)
      match withKw with
      | some res => some res
      | none => refGroup (r2.dropWhile isPyWs) some

/-- Model of `CROSS_REF_PATTERNS` applied with `re.findall` to one lowercased
content string, in source order. -/
def crossRefsIn (content : String) : List String :=
  let l := (pyLower content).data
  findAllScan crossRef1At (l.length + 1) l ++
    findAllScan crossRef2At (l.length + 1) l ++
    findAllScan crossRef3At (l.length + 1) l

/-- Deduplication keeping first occurrences (fuel-bounded; the fuel is the
list length, which suffices since every step consumes one element). -/
def dedupKeepFirst : Nat → List String → List String
  | 0, _ => []
  | _, [] => []
  | f + 1, x :: xs => x :: dedupKeepFirst f (xs.filter (fun y => y ≠ x))

/-- Model of `_extract_references`: regex references from the content of
every document,
then stored `references_sections` metadata split on commas, stripped,
empties dropped, deduplicated.  The CPython `list(set(…))` enumeration order
is unspecified; it is modelled as first-occurrence order, and no theorem
below depends on the enumeration order. -/
def extract_references (documents : List (LCDoc × ℚ)) : List String :=
  let fromContent := documents.flatMap (fun p => crossRefsIn p.1.page_content)
  let fromMeta := documents.flatMap (fun p =>
    if p.1.references_sections ≠ "" then pySplit ',' p.1.references_sections else [])
  let cleaned := ((fromContent ++ fromMeta).map pyStrip).filter (fun r => r ≠ "")
  dedupKeepFirst cleaned.length cleaned

/-- Model of `_find_related_section`: secondary similarity search for
`"section {ref}"` (k = 2 at the call site, folded into the collaborator
`search`), excluding chunk ids already present; any lookup failure is
logged and yields no documents. -/
def find_related_section (search : String → Except String (List (LCDoc × ℚ)))
    (section_ref : String) (exclude_ids : List (Option String)) : List (LCDoc × ℚ) :=
  match search ("section " ++ section_ref) with
  | .ok results => results.filter (fun p => !exclude_ids.contains p.1.chunk_id)
  | .error _ => []

/-- The reference loop of `enrich`, accumulating found documents and
growing the exclusion set. -/
def enrichLoop (search : String → Except String (List (LCDoc × ℚ))) :
    List String → List (Option String) → List (LCDoc × ℚ)
  | [], _ => []
  | ref :: rest, existing =>
    let related := find_related_section search ref existing
    related ++ enrichLoop search rest (existing ++ related.map (fun p => p.1.chunk_id))

/-- Model of `enrich`: extract references, walk the first `max_additional` of them,
and append every found document with its score down-weighted by 0.8. -/
def enrich (search : String → Except String (List (LCDoc × ℚ)))
    (documents : List (LCDoc × ℚ)) (max_additional : Nat) : List (LCDoc × ℚ) :=
  if documents.isEmpty then []
  else
    let referenced := (extract_references documents).take max_additional
    let additional := enrichLoop search referenced (documents.map (fun p => p.1.chunk_id))
    documents ++ additional.map (fun p => (p.1, p.2 * (8 / 10)))

end ContextEnricher

/-! ### RetrievalPipeline stages 1 and 2 (src/retrieval/pipeline.py) -/

namespace RetrievalPipeline

/-- Model of `_initial_retrieval`: with a truthy project name, `search_by_project`
is used, which passes no score threshold; otherwise `similarity_search`
with the configured threshold.  `raw` is the external index query, keyed by
the optional project filter. -/
def initial_retrieval (raw : Option String → List (LCDoc × ℚ))
    (similarity_threshold : ℚ) (project_name : Option String) : List (LCDoc × ℚ) :=
  if strFalsy project_name then
    ChromaVectorStore.similarity_search (raw none) (some similarity_threshold)
  else ChromaVectorStore.similarity_search (raw project_name) none

/-- The section-filter predicate: case-insensitive substring of the
section title or of the flattened hierarchy. -/
def matchesFilter (f : String) (d : LCDoc) : Bool :=
  strContains (pyLower d.section_title) (pyLower f) ||
    strContains (pyLower d.section_hierarchy) (pyLower f)

/-- The accumulation loop of `_apply_filters`. -/
def filterLoop (f : String) : List (LCDoc × ℚ) → List (LCDoc × ℚ)
  | [] => []
  | p :: rest =>
    if matchesFilter f p.1 then p :: filterLoop f rest else filterLoop f rest

/-- Model of `_apply_filters`: a falsy filter is a no-op; otherwise keep matching
documents, falling back to the whole input when nothing matches. -/
def apply_filters (documents : List (LCDoc × ℚ)) (section_filter : Option String) :
    List (LCDoc × ℚ) :=
  match section_filter with
  | none => documents
  | some f =>
    if f = "" then documents
    else
      let filtered := filterLoop f documents
      if filtered.isEmpty then documents else filtered

end RetrievalPipeline

/-! ### The analysis workflow (src/graph/nodes.py, src/graph/workflow.py) -/

/-- Query types (src/models/requests.py). -/
inductive QueryType where
  | requirement_extraction
  | gap_analysis
  | compliance_check
  | conflict_detection
  | ambiguity_analysis
  | general
  deriving Repr, DecidableEq

/-- The request fields the workflow reads; the remaining request fields
(context, max_results, …) are never touched by the graph nodes and are
omitted. -/
structure AnalysisRequest where
  query : String
  project_name : Option String
  query_type : QueryType
  target_section : Option String
  deriving Repr, DecidableEq

/-- A retrieved chunk as the workflow carries it (src/models/responses.py). -/
structure RetrievedChunk where
  chunk_id : String
  content : String
  relevance_score : ℚ
  source_document : String
  «section» : Option String
  page_numbers : List Int
  deriving Repr, DecidableEq

/-- The LangGraph state (src/graph/state.py), restricted to the fields the
nodes read or write. -/
structure GraphState where
  request : Option AnalysisRequest
  query : String
  query_type : QueryType
  project_filter : Option String
  retrieved_chunks : List RetrievedChunk
  context : String
  analysis_response : Option AnalysisResponse
  error : Option String
  current_step : String
  deriving Repr, DecidableEq

/-- The external collaborators the nodes call inside their `try` blocks:
query-type detection, the retrieval pipeline, and the analyzer.  An
`.error` outcome models a raised exception with its `str(e)` text. -/
structure Collaborators where
  detect_query_type : String → Except String QueryType
  retrieve : String → Option String → Option String → Except String (List RetrievedChunk)
  analyze : AnalysisRequest → List RetrievedChunk → Except String AnalysisResponse

namespace GraphNodes

/-- Model of `_build_context`: number the chunks from 1 and join the formatted
parts with newlines. -/
def build_context (chunks : List RetrievedChunk) : String :=
  String.intercalate "\n"
    ((chunks.enumFrom 1).map (fun p =>
      let sec := match p.2.«section» with
        | some s => if s = "" then "" else "[" ++ s ++ "]"
        | none => ""
      "--- Chunk " ++ toString p.1 ++ " " ++ sec ++ " ---\n" ++ p.2.content ++ "\n"))

/-- Model of `process_query`: detect the query type when the request says
`general`, resolve the project filter, advance the step; on an exception
record the error and route to the error step. -/
def process_query (c : Collaborators) (s : GraphState) : GraphState :=
  let detectedE : Except String QueryType :=
    match s.request with
    | some req =>
      if req.query_type = QueryType.general then c.detect_query_type s.query
      else .ok req.query_type
    | none => .ok QueryType.general
  match detectedE with
  | .ok t =>
    let pf :=
      if strFalsy s.project_filter then
        match s.request with
        | some req => req.project_name
        | none => s.project_filter
      else s.project_filter
    { s with query_type := t, project_filter := pf, current_step := "query_processed" }
  | .error e => { s with error := some e, current_step := "error" }

/-- Model of `retrieve_documents`: resolve the section filter from the request and
invoke the retrieval pipeline. -/
def retrieve_documents (c : Collaborators) (s : GraphState) : GraphState :=
  let sf : Option String :=
    match s.request with
    | some req => if strFalsy req.target_section then none else req.target_section
    | none => none
  match c.retrieve s.query s.project_filter sf with
  | .ok chunks =>
    { s with retrieved_chunks := chunks, context := build_context chunks
             current_step := "documents_retrieved" }
  | .error e => { s with error := some e, current_step := "error" }

/-- Model of `analyze_content`: build a default request when none is present and
invoke the analyzer. -/
def analyze_content (c : Collaborators) (s : GraphState) : GraphState :=
  let req : AnalysisRequest :=
    match s.request with
    | some r => r
    | none =>
      { query := s.query, query_type := s.query_type
        project_name := s.project_filter, target_section := none }
  match c.analyze req s.retrieved_chunks with
  | .ok resp => { s with analysis_response := some resp, current_step := "analysis_complete" }
  | .error e => { s with error := some e, current_step := "error" }

/-- Model of `handle_error`: build the best-effort error response (itself
pydantic-validated; a failure there would escape the workflow). -/
def handle_error (s : GraphState) : Except PyErr GraphState :=
  (mkAnalysisResponse []
      ("An error occurred during analysis: " ++ s.error.getD "None")
      [] 0 ["Analysis could not be completed due to an error"]
      (if s.query = "" then "Unknown query" else s.query)).map
    (fun r => { s with analysis_response := some r, current_step := "error_handled" })

end GraphNodes

/-- The conditional-edge predicate `if state.error:` (an empty error
string is falsy and does not route to the error node). -/
def errRouted (s : GraphState) : Bool :=
  !strFalsy s.error

/-- The initial state `run` builds from the request. -/
def initState (request : AnalysisRequest) : GraphState :=
  { request := some request, query := request.query
    query_type := request.query_type, project_filter := request.project_name
    retrieved_chunks := [], context := "", analysis_response := none
    error := none, current_step := "start" }

/-- The state after the `process_query` node. -/
def wfState1 (c : Collaborators) (request : AnalysisRequest) : GraphState :=
  GraphNodes.process_query c (initState request)

/-- The state after the `retrieve_documents` node. -/
def wfState2 (c : Collaborators) (request : AnalysisRequest) : GraphState :=
  GraphNodes.retrieve_documents c (wfState1 c request)

/-- The state after the `analyze_content` node. -/
def wfState3 (c : Collaborators) (request : AnalysisRequest) : GraphState :=
  GraphNodes.analyze_content c (wfState2 c request)

/-- The response extraction at the end of `run`: a final state without a
response reaches the `run` fallback, whose `AnalysisResponse` construction
omits the required `query` field and raises a `ValidationError` —
modelled as the `.error` outcome. -/
def extractResponse : Except PyErr GraphState → Except PyErr AnalysisResponse
  | .error e => .error e
  | .ok sf =>
    match sf.analysis_response with
    | some r => .ok r
    | none => .error .validationError

/-- Model of `RFPAnalysisGraph.run`: build the initial state from the request,
drive the graph (process → retrieve → analyze, with a branch-on-error edge
from every node into the terminal `handle_error`), and extract the
response. -/
def runGraph (c : Collaborators) (request : AnalysisRequest) : Except PyErr AnalysisResponse :=
  extractResponse
    (if errRouted (wfState1 c request) then GraphNodes.handle_error (wfState1 c request)
     else if errRouted (wfState2 c request) then GraphNodes.handle_error (wfState2 c request)
     else if errRouted (wfState3 c request) then GraphNodes.handle_error (wfState3 c request)
     else .ok (wfState3 c request))

/-- The error observed at the first edge that routes to `handle_error`,
`none` when the run never reaches the error state. -/
def firstWorkflowError (c : Collaborators) (request : AnalysisRequest) : Option String :=
  if errRouted (wfState1 c request) then (wfState1 c request).error
  else if errRouted (wfState2 c request) then (wfState2 c request).error
  else if errRouted (wfState3 c request) then (wfState3 c request).error
  else none

/-! ### Scenario inputs and statement vocabulary

Concrete documents, collaborators and predicates used by the theorems
below; they are part of the statements, not of the embedding. -/

deriving instance DecidableEq for Except

/-- Inputs on which normalization is idempotent: absent, the empty string,
or a string with at least one non-whitespace character.  Whitespace-only
non-empty strings are the exception the counterexample exhibits. -/
def idemSafe : Option String → Prop
  | none => True
  | some s => s = "" ∨ pyStrip (pyLower s) ≠ ""

/-- The scenario text of the spec. -/
def c6Text : String := "1. Intro\nfoo\n2. Req\n2.1 Security\nbar"

/-- The raw result list `_initial_retrieval` consumes, by branch: the
project-filtered query under a truthy project name, the unfiltered query
otherwise. -/
def rawUsed (raw : Option String → List (LCDoc × ℚ)) (pn : Option String) :
    List (LCDoc × ℚ) :=
  if strFalsy pn then raw none else raw pn

/-- A bare document for the stage-1 scenarios. -/
def c8doc : LCDoc :=
  { page_content := "", chunk_id := some "x", references_sections := ""
    section_title := "", section_hierarchy := "" }

/-- A bare document for the re-ranker scenarios. -/
def c4doc : LCDoc :=
  { page_content := "", chunk_id := some "a", references_sections := ""
    section_title := "", section_hierarchy := "" }

/-- A document with a chunk id and stored cross-references for the
enrichment scenario. -/
def c3doc (cid : String) (refs : String) : LCDoc :=
  { page_content := "", chunk_id := some cid, references_sections := refs
    section_title := "", section_hierarchy := "" }

/-- A secondary-search collaborator returning two fresh chunks for each of
the two referenced sections (`k = 2` at the call site). -/
def c3search : String → Except String (List (LCDoc × ℚ)) := fun q =>
  if q = "section 1" then .ok [(c3doc "b" "", 1), (c3doc "c" "", 1)]
  else if q = "section 2" then .ok [(c3doc "d" "", 1), (c3doc "e" "", 1)]
  else .ok []

/-- The request of the workflow scenario. -/
def c2req : AnalysisRequest :=
  { query := "What are the requirements?", project_name := none
    query_type := QueryType.general, target_section := none }

/-- Collaborators whose retrieval stage raises. -/
def c2collabs : Collaborators :=
  { detect_query_type := fun _ => .ok QueryType.general
    retrieve := fun _ _ _ => .error "boom"
    analyze := fun _ _ => .error "unused" }

/-! ### Supporting lemmas -/

/-- Inversion for a successful `Except`-bind. -/
theorem except_bind_ok {ε α β : Type} {x : Except ε α} {f : α → Except ε β} {b : β}
    (h : (x >>= f) = .ok b) : ∃ a, x = .ok a ∧ f a = .ok b := by
  cases x with
  | ok a => exact ⟨a, rfl, h⟩
  | error e => exact Except.noConfusion h

/-- The confidence validator only accepts in-range values. -/
theorem validateConfidence_bounds {v : JVal} {q : ℚ}
    (h : StructuredOutputParser.validateConfidence v = .ok q) : 0 ≤ q ∧ q ≤ 100 := by
  cases v with
  | jnum x =>
    simp only [StructuredOutputParser.validateConfidence] at h
    split_ifs at h with hb
    cases h; exact hb
  | jstr s =>
    simp only [StructuredOutputParser.validateConfidence] at h
    cases hp : StructuredOutputParser.parseRatStr s with
    | some x =>
      rw [hp] at h
      simp only [] at h
      split_ifs at h with hb
      cases h; exact hb
    | none => rw [hp] at h; exact Except.noConfusion h
  | jnull => exact Except.noConfusion ((by simp only [StructuredOutputParser.validateConfidence] at h; exact h : (Except.error PyErr.validationError : Except PyErr ℚ) = .ok q))
  | jbool b => exact Except.noConfusion ((by simp only [StructuredOutputParser.validateConfidence] at h; exact h : (Except.error PyErr.validationError : Except PyErr ℚ) = .ok q))
  | jarr xs => exact Except.noConfusion ((by simp only [StructuredOutputParser.validateConfidence] at h; exact h : (Except.error PyErr.validationError : Except PyErr ℚ) = .ok q))
  | jobj kvs => exact Except.noConfusion ((by simp only [StructuredOutputParser.validateConfidence] at h; exact h : (Except.error PyErr.validationError : Except PyErr ℚ) = .ok q))

/-- A successful `buildResponse` carries an in-range confidence and the
query it was given. -/
theorem buildResponse_ok {j : JVal} {query : String} {r : AnalysisResponse}
    (h : StructuredOutputParser.buildResponse j query = .ok r) :
    (0 ≤ r.confidence ∧ r.confidence ≤ 100) ∧ r.query = query := by
  cases j with
  | jobj kvs =>
    unfold StructuredOutputParser.buildResponse at h
    obtain ⟨items, h1, h⟩ := except_bind_ok h
    obtain ⟨reqs, h2, h⟩ := except_bind_ok h
    obtain ⟨reas, h3, h⟩ := except_bind_ok h
    obtain ⟨gaps, h4, h⟩ := except_bind_ok h
    obtain ⟨conf, h5, h⟩ := except_bind_ok h
    obtain ⟨unc, h6, h⟩ := except_bind_ok h
    cases h
    exact ⟨validateConfidence_bounds h5, rfl⟩
  | jnull => exact Except.noConfusion h
  | jbool b => exact Except.noConfusion h
  | jnum q => exact Except.noConfusion h
  | jstr s => exact Except.noConfusion h
  | jarr xs => exact Except.noConfusion h

/-- A successful pydantic construction preserves the query argument. -/
theorem mkAnalysisResponse_ok {a b c e q : _} {d : ℚ} {r : AnalysisResponse}
    (h : mkAnalysisResponse a b c d e q = .ok r) :
    r = ⟨a, b, c, d, e, q⟩ ∧ 0 ≤ d ∧ d ≤ 100 := by
  unfold mkAnalysisResponse at h
  split at h
  · cases h; exact ⟨rfl, by assumption⟩
  · exact Except.noConfusion h

/-- The exception fallback of `parse` always constructs successfully
(confidence 0 is in range). -/
theorem parse_fallback_ok (e : PyErr) (text query : String) :
    mkAnalysisResponse []
        ("Failed to parse response: " ++ e.message ++ ". Raw output: " ++ pyTake 500 text)
        [] 0 [] query =
      .ok ⟨[], "Failed to parse response: " ++ e.message ++ ". Raw output: " ++ pyTake 500 text,
           [], 0, [], query⟩ := by
  unfold mkAnalysisResponse
  rw [if_pos (by norm_num)]

/-! ### Claims about the structured output parser -/

/-- C1 (counterexample): for input `"{}"` the direct JSON parse succeeds
and `parse` returns a response whose `reasoning` is the empty string
(`json_data.get("reasoning", "")` with no `reasoning` key), contradicting
the claim that the returned response always has a non-empty reasoning. -/
theorem C1_counterexample :
    StructuredOutputParser.parse "\x7b\x7d" "q" =
      .ok ⟨[], "", [], 50, [], "q"⟩ := by decide

/-- C1 (amended): `parse` is total — for every input text and query it
returns a response (never raises) whose confidence lies in `[0, 100]`.
(The non-empty-reasoning part of the claim is dropped: a successful
extraction copies the `reasoning` field of the JSON, which may be empty or
absent.) -/
theorem C1_parse_total (text query : String) :
    ∃ r, StructuredOutputParser.parse text query = .ok r ∧
      0 ≤ r.confidence ∧ r.confidence ≤ 100 := by
  unfold StructuredOutputParser.parse
  cases hx : StructuredOutputParser.extract_json text >>=
      (fun j => StructuredOutputParser.buildResponse j query) with
  | ok r =>
    obtain ⟨j, _, hb⟩ := except_bind_ok hx
    exact ⟨r, rfl, (buildResponse_ok hb).1⟩
  | error e =>
    exact ⟨_, parse_fallback_ok e text query, le_refl 0, by norm_num⟩

/-- C10: the response returned by `parse` carries the query argument in
its `query` field, on the successful-extraction path and on the
exception-fallback path alike. -/
theorem C10_query_preserved (text query : String) (r : AnalysisResponse)
    (h : StructuredOutputParser.parse text query = .ok r) : r.query = query := by
  unfold StructuredOutputParser.parse at h
  cases hx : StructuredOutputParser.extract_json text >>=
      (fun j => StructuredOutputParser.buildResponse j query) with
  | ok r' =>
    rw [hx] at h
    cases h
    obtain ⟨j, _, hb⟩ := except_bind_ok hx
    exact (buildResponse_ok hb).2
  | error e =>
    rw [hx] at h
    have := (mkAnalysisResponse_ok h).1
    rw [this]

/-- When extraction returns a value that builds successfully, `parse`
returns that build. -/
theorem parse_of_extract_ok {text query : String} {j : JVal} {r : AnalysisResponse}
    (he : StructuredOutputParser.extract_json text = .ok j)
    (hb : StructuredOutputParser.buildResponse j query = .ok r) :
    StructuredOutputParser.parse text query = .ok r := by
  unfold StructuredOutputParser.parse
  rw [he,
    show ((Except.ok j : Except PyErr JVal) >>=
        fun j => StructuredOutputParser.buildResponse j query) =
      StructuredOutputParser.buildResponse j query from rfl,
    hb]

/-- Building from the minimal structure yields exactly the conf-30
response with the raw text as reasoning. -/
theorem buildResponse_minimal (text query : String) :
    StructuredOutputParser.buildResponse (StructuredOutputParser.minimalStructure text) query =
      .ok ⟨[], text, [], 30, [], query⟩ := by
  rfl

/-- C5 (counterexample): on the input `"hello"` — which contains no brace
at all — the direct parse, the pattern loop and the repair stage all fail,
but `parse` returns the exception fallback with confidence 0 and the
failure message as reasoning, not the claimed confidence-30 synthesis with
the raw text as reasoning. -/
theorem C5_counterexample :
    (json_loads "hello").isNone = true ∧
    (StructuredOutputParser.tryPatterns "hello").isNone = true ∧
    StructuredOutputParser.parse "hello" "q" =
      .ok ⟨[], "Failed to parse response: No JSON object found in text. Raw output: hello",
           [], 0, [], "q"⟩ := by
  exact ⟨by decide, by decide, by decide⟩

/-- C5 (amended): when the text does contain an opening and a closing
brace and the direct parse, the pattern loop and the repaired parse all
fail, `parse` synthesizes the minimal result — empty requirement list,
reasoning set to the raw input text, confidence 30.  (Texts without a `{`
or without a `}` instead raise `ValueError` inside `_fix_and_parse_json`
and get the confidence-0 exception fallback.) -/
theorem C5_fix_fallback (text query : String)
    (h1 : (json_loads text).isNone = true)
    (h2 : (StructuredOutputParser.tryPatterns text).isNone = true)
    (h3 : ((StructuredOutputParser.firstIdxOf lbrace text.data).isSome &&
           (StructuredOutputParser.lastIdxOf rbrace text.data).isSome) = true)
    (h4 : (json_loads (StructuredOutputParser.commonFixes
            (StructuredOutputParser.braceSlice text))).isNone = true) :
    StructuredOutputParser.parse text query = .ok ⟨[], text, [], 30, [], query⟩ := by
  have hext : StructuredOutputParser.extract_json text =
      .ok (StructuredOutputParser.minimalStructure text) := by
    unfold StructuredOutputParser.extract_json
    rw [Option.isNone_iff_eq_none.mp h1, Option.isNone_iff_eq_none.mp h2]
    unfold StructuredOutputParser.fix_and_parse_json
    rw [if_pos h3, Option.isNone_iff_eq_none.mp h4]
  exact parse_of_extract_ok hext (buildResponse_minimal text query)

/-- C5 witness: the input `"{]}"` has braces, defeats all three
strategies, and indeed produces the confidence-30 synthesis. -/
theorem C5_witness :
    (json_loads "\x7b]\x7d").isNone = true ∧
    (StructuredOutputParser.tryPatterns "\x7b]\x7d").isNone = true ∧
    ((StructuredOutputParser.firstIdxOf lbrace "\x7b]\x7d".data).isSome &&
     (StructuredOutputParser.lastIdxOf rbrace "\x7b]\x7d".data).isSome) = true ∧
    (json_loads (StructuredOutputParser.commonFixes
        (StructuredOutputParser.braceSlice "\x7b]\x7d"))).isNone = true ∧
    StructuredOutputParser.parse "\x7b]\x7d" "q" = .ok ⟨[], "\x7b]\x7d", [], 30, [], "q"⟩ :=
  ⟨by decide, by decide, by decide, by decide,
   C5_fix_fallback "\x7b]\x7d" "q" (by decide) (by decide) (by decide) (by decide)⟩

/-! ### Character and string lemmas for priority normalization -/

/-- Model of `Char.toNat` is injective. -/
theorem char_toNat_inj {a b : Char} (h : a.toNat = b.toNat) : a = b := by
  have ha := Char.ofNat_toNat a
  rw [h, Char.ofNat_toNat] at ha
  exact ha.symm

/-- Model of `Char.ofNat` round-trips on scalar values below the surrogate range. -/
theorem toNat_ofNat_valid {m : Nat} (h : m < 55296) : (Char.ofNat m).toNat = m := by
  unfold Char.ofNat
  rw [dif_pos (Or.inl h)]
  simp [Char.ofNatAux, Char.toNat, UInt32.toNat, BitVec.toNat_ofNatLt]

/-- Arithmetic characterization of `Char.toLower`. -/
theorem toLower_toNat (c : Char) :
    (Char.toLower c).toNat =
      if 65 ≤ c.toNat ∧ c.toNat ≤ 90 then c.toNat + 32 else c.toNat := by
  show (if c.toNat ≥ 65 ∧ c.toNat ≤ 90 then Char.ofNat (c.toNat + 32) else c).toNat =
    if 65 ≤ c.toNat ∧ c.toNat ≤ 90 then c.toNat + 32 else c.toNat
  split_ifs with h1
  · exact toNat_ofNat_valid (show c.toNat + 32 < 55296 by omega)
  · rfl

/-- Lowercasing is idempotent. -/
theorem toLower_idem (c : Char) : c.toLower.toLower = c.toLower := by
  apply char_toNat_inj
  rw [toLower_toNat, toLower_toNat]
  split_ifs <;> omega

/-- Character equality through code points. -/
theorem charEqNat (c d : Char) : (decide (c = d)) = decide (c.toNat = d.toNat) :=
  decide_eq_decide.mpr ⟨fun h => by rw [h], fun h => char_toNat_inj h⟩

/-- Whitespace membership through code points. -/
theorem isPyWs_eq (c : Char) :
    isPyWs c =
      decide (c.toNat = 32 ∨ c.toNat = 9 ∨ c.toNat = 10 ∨ c.toNat = 13 ∨
        c.toNat = 11 ∨ c.toNat = 12) := by
  unfold isPyWs
  rw [charEqNat c ' ', charEqNat c '\t', charEqNat c '\n', charEqNat c '\r',
      charEqNat c (Char.ofNat 11), charEqNat c (Char.ofNat 12),
      show (' ' : Char).toNat = 32 from by decide,
      show ('\t' : Char).toNat = 9 from by decide,
      show ('\n' : Char).toNat = 10 from by decide,
      show ('\r' : Char).toNat = 13 from by decide,
      show (Char.ofNat 11).toNat = 11 from by decide,
      show (Char.ofNat 12).toNat = 12 from by decide,
      Bool.decide_or, Bool.decide_or, Bool.decide_or, Bool.decide_or, Bool.decide_or]
  simp [Bool.or_assoc]

/-- Lowercasing does not move a character in or out of whitespace. -/
theorem isPyWs_toLower (c : Char) : isPyWs c.toLower = isPyWs c := by
  rw [isPyWs_eq, isPyWs_eq, toLower_toNat]
  split_ifs with h
  · exact decide_eq_decide.mpr (by omega)
  · rfl

/-- Model of `pyLower` is idempotent. -/
theorem pyLower_pyLower (s : String) : pyLower (pyLower s) = pyLower s := by
  unfold pyLower
  apply congrArg String.mk
  show (s.data.map Char.toLower).map Char.toLower = s.data.map Char.toLower
  rw [List.map_map]
  congr 1
  funext c
  exact toLower_idem c

/-- Model of `dropWhile` is idempotent. -/
theorem dropWhile_idem (p : Char → Bool) (l : List Char) :
    (l.dropWhile p).dropWhile p = l.dropWhile p := by
  induction l with
  | nil => rfl
  | cons c r ih =>
    rw [List.dropWhile_cons]
    split_ifs with h
    · exact ih
    · rw [List.dropWhile_cons, if_neg h]

/-- A prefix of a list with no leading `p`-run has no leading `p`-run. -/
theorem dropWhile_eq_self_of_prefixed {p : Char → Bool} {m l : List Char}
    (hp : m <+: l) (hl : l.dropWhile p = l) : m.dropWhile p = m := by
  cases m with
  | nil => rfl
  | cons c r =>
    obtain ⟨t, ht⟩ := hp
    rw [← ht, List.cons_append, List.dropWhile_cons] at hl
    split_ifs at hl with h
    · exfalso
      have hlen := congrArg List.length hl
      have hle := (List.dropWhile_sublist (l := r ++ t) p).length_le
      simp only [List.length_cons] at hlen
      omega
    · rw [List.dropWhile_cons, if_neg h]

/-- Model of `pyStrip` is idempotent. -/
theorem pyStrip_idem (s : String) : pyStrip (pyStrip s) = pyStrip s := by
  unfold pyStrip
  apply congrArg String.mk
  show ((((((s.data.dropWhile isPyWs).reverse.dropWhile isPyWs).reverse).dropWhile
      isPyWs).reverse).dropWhile isPyWs).reverse =
    ((s.data.dropWhile isPyWs).reverse.dropWhile isPyWs).reverse
  set a := s.data.dropWhile isPyWs with ha
  set b := (a.reverse.dropWhile isPyWs).reverse with hb
  have hb_pref : b <+: a := by
    have hsuf : a.reverse.dropWhile isPyWs <:+ a.reverse := List.dropWhile_suffix _
    have := hsuf.reverse
    simpa using this
  have h1 : b.dropWhile isPyWs = b :=
    dropWhile_eq_self_of_prefixed hb_pref (by rw [ha]; exact dropWhile_idem _ _)
  rw [h1]
  have h2 : b.reverse.dropWhile isPyWs = b.reverse := by
    rw [hb, List.reverse_reverse]
    exact dropWhile_idem _ _
  rw [h2, List.reverse_reverse]

/-- Lowercasing commutes with stripping. -/
theorem pyLower_pyStrip (s : String) : pyLower (pyStrip s) = pyStrip (pyLower s) := by
  unfold pyLower pyStrip
  apply congrArg String.mk
  have hpred : (fun c => isPyWs (Char.toLower c)) = isPyWs := funext isPyWs_toLower
  show (((s.data.dropWhile isPyWs).reverse.dropWhile isPyWs).reverse).map Char.toLower =
    (((s.data.map Char.toLower).dropWhile isPyWs).reverse.dropWhile isPyWs).reverse
  rw [List.dropWhile_map, show (isPyWs ∘ Char.toLower) = isPyWs from funext isPyWs_toLower,
      ← List.map_reverse, List.dropWhile_map,
      show (isPyWs ∘ Char.toLower) = isPyWs from funext isPyWs_toLower, ← List.map_reverse]

/-- The lower-then-strip normal form reached inside `_normalize_priority`
is a fixed point of itself. -/
theorem normForm_idem (s : String) :
    pyStrip (pyLower (pyStrip (pyLower s))) = pyStrip (pyLower s) := by
  rw [pyLower_pyStrip, pyLower_pyLower, pyStrip_idem]

/-- The synonym map sends every value to one of the three canonical
priorities or passes it through. -/
theorem priorityMapGet_cases (l : String) :
    StructuredOutputParser.priorityMapGet l = "high" ∨
    StructuredOutputParser.priorityMapGet l = "medium" ∨
    StructuredOutputParser.priorityMapGet l = "low" ∨
    StructuredOutputParser.priorityMapGet l = l := by
  unfold StructuredOutputParser.priorityMapGet
  split_ifs <;> tauto

/-! ### Claims about priority normalization -/

/-- C9 (counterexample): normalization is not idempotent on the
whitespace-only string `" "`: one application yields `some ""` (the
lowercased, stripped passthrough), but a second application hits the
falsiness check and yields `none`. -/
theorem C9_counterexample :
    StructuredOutputParser.normalize_priority
        (StructuredOutputParser.normalize_priority (some " ")) ≠
      StructuredOutputParser.normalize_priority (some " ") := by decide

/-- C9 (amended): normalization is idempotent on every input except the
whitespace-only non-empty strings; the synonym table maps
critical/mandatory to high, moderate/normal to medium, and
optional/nice-to-have to low; unrecognized values pass through lowercased
and stripped; absent stays absent. -/
theorem C9_amended :
    (∀ x : Option String, idemSafe x →
      StructuredOutputParser.normalize_priority
          (StructuredOutputParser.normalize_priority x) =
        StructuredOutputParser.normalize_priority x) ∧
    StructuredOutputParser.normalize_priority (some "high") = some "high" ∧
    StructuredOutputParser.normalize_priority (some "critical") = some "high" ∧
    StructuredOutputParser.normalize_priority (some "mandatory") = some "high" ∧
    StructuredOutputParser.normalize_priority (some "moderate") = some "medium" ∧
    StructuredOutputParser.normalize_priority (some "normal") = some "medium" ∧
    StructuredOutputParser.normalize_priority (some "optional") = some "low" ∧
    StructuredOutputParser.normalize_priority (some "nice-to-have") = some "low" ∧
    StructuredOutputParser.normalize_priority none = none ∧
    (∀ s : String, s ≠ "" →
      StructuredOutputParser.priorityMapGet (pyStrip (pyLower s)) = pyStrip (pyLower s) →
      StructuredOutputParser.normalize_priority (some s) = some (pyStrip (pyLower s))) := by
  refine ⟨?_, by decide, by decide, by decide, by decide, by decide, by decide, by decide,
    rfl, ?_⟩
  · intro x hx
    cases x with
    | none => rfl
    | some s =>
      by_cases hs : s = ""
      · subst hs; rfl
      · have hl : pyStrip (pyLower s) ≠ "" := (hx.resolve_left hs)
        have e1 : StructuredOutputParser.normalize_priority (some s) =
            some (StructuredOutputParser.priorityMapGet (pyStrip (pyLower s))) := by
          simp only [StructuredOutputParser.normalize_priority]
          rw [if_neg hs]
        rw [e1]
        rcases priorityMapGet_cases (pyStrip (pyLower s)) with h | h | h | h <;> rw [h]
        · decide
        · decide
        · decide
        · simp only [StructuredOutputParser.normalize_priority]
          rw [if_neg hl, normForm_idem, h]
  · intro s hs hmap
    simp only [StructuredOutputParser.normalize_priority]
    rw [if_neg hs, hmap]

/-- C9 witness: the amended idempotence applied to `"Critical"`. -/
theorem C9_witness :
    idemSafe (some "Critical") ∧
    StructuredOutputParser.normalize_priority
        (StructuredOutputParser.normalize_priority (some "Critical")) =
      StructuredOutputParser.normalize_priority (some "Critical") :=
  ⟨Or.inr (by decide), C9_amended.1 (some "Critical") (Or.inr (by decide))⟩

/-! ### Claims about section segmentation -/

/-- C6 (counterexample): the scenario text does not segment into three
sections numbered "0"/"1"/"2.1" — neither when `_identify_sections` is
applied to the raw lines nor through `split` (which first collapses
newlines in `_clean_text`).  The lines `"1. Intro"` and `"2. Req"` match
no section pattern: `^(\d+(?:\.\d+)*)\s+[A-Z]` requires whitespace
directly after the numeral, but these lines have a period there. -/
theorem C6_counterexample :
    (HierarchicalChunkingStrategy.identify_sections c6Text).map
        HierarchicalChunkingStrategy.DocSection.number ≠ ["0", "1", "2.1"] ∧
    (HierarchicalChunkingStrategy.split_sections c6Text).map
        HierarchicalChunkingStrategy.DocSection.number ≠ ["0", "1", "2.1"] :=
  ⟨by decide, by decide⟩

/-- C6 (amended): segmenting the scenario text with `_identify_sections`
yields exactly two sections — the implicit "Introduction" numbered "0"
(hierarchy `[]`) absorbing the unrecognized header lines, and "2.1"
(hierarchy `["2", "2.1"]`); through `split`, whose `_clean_text` first
collapses the newlines, a single "0" section remains. -/
theorem C6_amended :
    HierarchicalChunkingStrategy.identify_sections c6Text =
      [⟨"Introduction", "0", "1. Intro foo 2. Req", []⟩,
       ⟨"2.1 Security", "2.1", "bar", ["2", "2.1"]⟩] ∧
    HierarchicalChunkingStrategy.split_sections c6Text =
      [⟨"Introduction", "0", "1. Intro foo 2. Req 2.1 Security bar", []⟩] :=
  ⟨by decide, by decide⟩

/-! ### Claim about the section filter stage -/

/-- The explicit filter loop agrees with `List.filter`. -/
theorem filterLoop_eq_filter (f : String) (l : List (LCDoc × ℚ)) :
    RetrievalPipeline.filterLoop f l =
      l.filter (fun p => RetrievalPipeline.matchesFilter f p.1) := by
  induction l with
  | nil => rfl
  | cons p rest ih =>
    simp only [RetrievalPipeline.filterLoop, List.filter_cons]
    split_ifs with h
    · rw [ih]
    · exact ih

/-- The empty string occurs in every string. -/
theorem strContains_empty (h : String) : strContains h "" = true := by
  unfold strContains
  cases hd : h.data with
  | nil => rfl
  | cons c r => simp [List.tails, List.isPrefixOf]

/-- Every document matches the empty filter. -/
theorem matchesFilter_empty (d : LCDoc) : RetrievalPipeline.matchesFilter "" d = true := by
  unfold RetrievalPipeline.matchesFilter
  rw [show pyLower "" = "" from rfl, strContains_empty, strContains_empty]
  rfl

/-- C7: for every candidate list and section filter string, the filter
stage returns exactly the matching candidates, except that a filter
matching nothing is a no-op returning the full unfiltered set. -/
theorem C7_filter_fallback (documents : List (LCDoc × ℚ)) (f : String) :
    RetrievalPipeline.apply_filters documents (some f) =
      if (documents.filter (fun p => RetrievalPipeline.matchesFilter f p.1)).isEmpty
      then documents
      else documents.filter (fun p => RetrievalPipeline.matchesFilter f p.1) := by
  simp only [RetrievalPipeline.apply_filters]
  by_cases hf : f = ""
  · subst hf
    rw [if_pos rfl]
    have hall : documents.filter (fun p => RetrievalPipeline.matchesFilter "" p.1) =
        documents :=
      List.filter_eq_self.mpr (fun a _ => matchesFilter_empty a.1)
    rw [hall]
    split_ifs <;> rfl
  · rw [if_neg hf, filterLoop_eq_filter]

/-! ### Claim about stage-1 similarity scores and the threshold -/

/-- Normalized similarity scores are positive and at most one for
non-negative distances. -/
theorem simScore_bounds {d : ℚ} (hd : 0 ≤ d) : 0 < 1 / (1 + d) ∧ 1 / (1 + d) ≤ 1 := by
  have hpos : (0 : ℚ) < 1 + d := by linarith
  exact ⟨div_pos one_pos hpos, by rw [div_le_one hpos]; linarith⟩

/-- Every result of `similarity_search` is a raw result with its distance
normalized. -/
theorem similarity_search_mem {raw : List (LCDoc × ℚ)} {thr : Option ℚ} {p : LCDoc × ℚ}
    (hp : p ∈ ChromaVectorStore.similarity_search raw thr) :
    ∃ dd ∈ raw, p.1 = dd.1 ∧ p.2 = 1 / (1 + dd.2) := by
  unfold ChromaVectorStore.similarity_search at hp
  have hmem : p ∈ raw.map (fun q => (q.1, 1 / (1 + q.2))) := by
    cases thr with
    | none => exact hp
    | some t => exact List.mem_of_mem_filter hp
  obtain ⟨dd, hdd, heq⟩ := List.mem_map.mp hmem
  exact ⟨dd, hdd, by rw [← heq], by rw [← heq]⟩

/-- With a threshold given, every surviving result meets it. -/
theorem similarity_search_threshold {raw : List (LCDoc × ℚ)} {t : ℚ} {p : LCDoc × ℚ}
    (hp : p ∈ ChromaVectorStore.similarity_search raw (some t)) : t ≤ p.2 := by
  unfold ChromaVectorStore.similarity_search at hp
  have := (List.mem_filter.mp hp).2
  simpa using this

/-- C8 (counterexample): with a project filter given and no section filter
anywhere, a result whose normalized similarity 1/10 lies below the
configured threshold 7/10 survives stages 1 and 2 — the similarity floor
is only applied when no **project** filter is requested, not when no
section filter is requested. -/
theorem C8_counterexample :
    RetrievalPipeline.apply_filters
        (RetrievalPipeline.initial_retrieval (fun _ => [(c8doc, 9)]) (7/10) (some "proj"))
        none =
      [(c8doc, 1/10)] ∧ ¬ ((7 : ℚ)/10 ≤ 1/10) := by
  constructor
  · norm_num [RetrievalPipeline.apply_filters, RetrievalPipeline.initial_retrieval,
      ChromaVectorStore.similarity_search, strFalsy]
    decide
  · norm_num

/-- C8 (amended): every score reported by stage 1 is `1 / (1 + distance)`
for some raw result, lying in `(0, 1]` when the distance is non-negative;
and the similarity floor is applied exactly when no project filter is
requested (the threshold plays no role in the project-filtered branch,
and the section filter plays no role in stage 1 at all). -/
theorem C8_amended (raw : Option String → List (LCDoc × ℚ)) (tq : ℚ) (pn : Option String)
    (p : LCDoc × ℚ) (hp : p ∈ RetrievalPipeline.initial_retrieval raw tq pn) :
    (∃ dd ∈ rawUsed raw pn, p.1 = dd.1 ∧ p.2 = 1 / (1 + dd.2) ∧
      (0 ≤ dd.2 → 0 < p.2 ∧ p.2 ≤ 1)) ∧
    (pn = none → tq ≤ p.2) := by
  unfold RetrievalPipeline.initial_retrieval at hp
  unfold rawUsed
  by_cases hf : strFalsy pn = true
  · rw [if_pos hf] at hp
    rw [if_pos hf]
    refine ⟨?_, fun _ => similarity_search_threshold hp⟩
    obtain ⟨dd, hdd, h1, h2⟩ := similarity_search_mem hp
    exact ⟨dd, hdd, h1, h2, fun hd => by rw [h2]; exact simScore_bounds hd⟩
  · rw [if_neg hf] at hp
    rw [if_neg hf]
    refine ⟨?_, fun hcon => absurd (by rw [hcon]; rfl) hf⟩
    obtain ⟨dd, hdd, h1, h2⟩ := similarity_search_mem hp
    exact ⟨dd, hdd, h1, h2, fun hd => by rw [h2]; exact simScore_bounds hd⟩

/-- C8 witness: the amended statement applied to the unfiltered branch at
distance 1 with threshold 1/2. -/
theorem C8_witness :
    (∃ dd ∈ rawUsed (fun _ => [(c8doc, 1)]) none,
      c8doc = dd.1 ∧ (1 : ℚ)/2 = 1 / (1 + dd.2) ∧
      (0 ≤ dd.2 → 0 < (1 : ℚ)/2 ∧ (1 : ℚ)/2 ≤ 1)) ∧
    ((none : Option String) = none → (1 : ℚ)/2 ≤ 1/2) :=
  C8_amended (fun _ => [(c8doc, 1)]) (1/2) none (c8doc, 1/2)
    (by norm_num [RetrievalPipeline.initial_retrieval, ChromaVectorStore.similarity_search,
      strFalsy])

/-! ### Claims about the model-scored re-ranker -/

/-- Every output pair of `rerank` is the blend of some input pair. -/
theorem rerank_mem {scoreOf : LCDoc → Option ℚ} {documents : List (LCDoc × ℚ)}
    {top_k : Option Nat} {p : LCDoc × ℚ}
    (hp : p ∈ ReRanker.rerank scoreOf documents top_k) :
    p ∈ documents.map
      (fun q => (q.1, q.2 * (3 / 10) +
        ReRanker.score_document (scoreOf q.1) / 100 * (7 / 10))) := by
  unfold ReRanker.rerank at hp
  by_cases he : documents.isEmpty
  · rw [if_pos he] at hp
    exact absurd hp (List.not_mem_nil p)
  · rw [if_neg he] at hp
    have hsorted : p ∈ (documents.map
        (fun q => (q.1, q.2 * (3 / 10) +
          ReRanker.score_document (scoreOf q.1) / 100 * (7 / 10)))).insertionSort
        (fun x y => y.2 ≤ x.2) := by
      cases top_k with
      | none => exact hp
      | some k =>
        by_cases hk : k ≠ 0
        · exact List.take_subset _ _ (by simpa [hk] using hp)
        · simpa [hk] using hp
    exact ((List.perm_insertionSort _ _).mem_iff).mp hsorted

/-- C4 (counterexample): for a candidate whose model reply is the
out-of-range value 150, the model score actually used is the clamp
`min(100, max(0, 150)) = 100`, not the neutral default 50: with an
original score of 0 the final score is 7/10, where the claim predicts
0.3·0 + 0.7·(50/100) = 7/20. -/
theorem C4_counterexample :
    ReRanker.rerank (fun _ => some 150) [(c4doc, 0)] none = [(c4doc, 7/10)] ∧
    (7 : ℚ)/10 ≠ (3/10) * 0 + (7/10) * (50/100) := by
  constructor
  · norm_num [ReRanker.rerank, ReRanker.score_document, List.insertionSort,
      List.orderedInsert, min_def, max_def]
  · norm_num

/-- C4 (amended): the final score of every candidate equals
0.3·original + 0.7·(model score / 100), where the model score is the
neutral default 50 for a non-numeric reply and the clamp of the numeric
reply into [0, 100] otherwise (out-of-range numeric replies are clamped,
not defaulted). -/
theorem C4_blend (scoreOf : LCDoc → Option ℚ) (documents : List (LCDoc × ℚ))
    (top_k : Option Nat) (p : LCDoc × ℚ)
    (hp : p ∈ ReRanker.rerank scoreOf documents top_k) :
    ∃ s0, (p.1, s0) ∈ documents ∧
      p.2 = (3 / 10) * s0 + (7 / 10) * (ReRanker.score_document (scoreOf p.1) / 100) ∧
      (scoreOf p.1 = none → ReRanker.score_document (scoreOf p.1) = 50) ∧
      (∀ q, scoreOf p.1 = some q →
        ReRanker.score_document (scoreOf p.1) = min 100 (max 0 q)) := by
  obtain ⟨q0, hq0, heq⟩ := List.mem_map.mp (rerank_mem hp)
  have h1 : q0.1 = p.1 := by rw [← heq]
  have h2 : q0.2 * (3 / 10) + ReRanker.score_document (scoreOf q0.1) / 100 * (7 / 10) =
      p.2 := by rw [← heq]
  refine ⟨q0.2, ?_, ?_, ?_, ?_⟩
  · rw [← h1]
    simpa using hq0
  · rw [← h2, ← h1]
    ring
  · intro hn
    simp [ReRanker.score_document, hn]
  · intro q hq
    simp [ReRanker.score_document, hq]

/-- C4 witness: the blend equation applied to a singleton candidate list
with a non-numeric reply. -/
theorem C4_witness :
    ∃ s0, (c4doc, s0) ∈ [(c4doc, (1 : ℚ))] ∧
      (13 : ℚ)/20 = (3/10) * s0 + (7/10) * (ReRanker.score_document none / 100) ∧
      ((none : Option ℚ) = none → ReRanker.score_document none = 50) ∧
      (∀ q, (none : Option ℚ) = some q → ReRanker.score_document none = min 100 (max 0 q)) :=
  C4_blend (fun _ => none) [(c4doc, 1)] none (c4doc, 13/20)
    (by norm_num [ReRanker.rerank, ReRanker.score_document, List.insertionSort,
      List.orderedInsert])

/-! ### Claim about context enrichment -/

/-- C3 (code bug): `enrich` with `max_additional = 3` caps the number of
cross-references tried, not the number of chunks added: one retrieved
document referencing sections "1" and "2" gains 2 + 2 = 4 additional
chunks — more than `max_additional` — each down-weighted by 0.8,
contradicting the claim and the docstring of the function itself ("Maximum
additional documents to add"). -/
theorem C3_cap_violated :
    ContextEnricher.enrich c3search [(c3doc "a" "1,2", 1)] 3 =
      [(c3doc "a" "1,2", 1), (c3doc "b" "", 4/5), (c3doc "c" "", 4/5),
       (c3doc "d" "", 4/5), (c3doc "e" "", 4/5)] ∧
    (ContextEnricher.enrich c3search [(c3doc "a" "1,2", 1)] 3).length = 5 ∧
    ¬ ((5 : ℕ) - 1 ≤ 3) := by
  have hadd : ContextEnricher.enrichLoop c3search
      ((ContextEnricher.extract_references [(c3doc "a" "1,2", 1)]).take 3)
      ([(c3doc "a" "1,2", (1 : ℚ))].map (fun p => p.1.chunk_id)) =
      [(c3doc "b" "", 1), (c3doc "c" "", 1), (c3doc "d" "", 1), (c3doc "e" "", 1)] := by
    decide
  have hE : ContextEnricher.enrich c3search [(c3doc "a" "1,2", 1)] 3 =
      [(c3doc "a" "1,2", (1 : ℚ))] ++ List.map (fun p => (p.1, p.2 * (8/10)))
        (ContextEnricher.enrichLoop c3search
          ((ContextEnricher.extract_references [(c3doc "a" "1,2", 1)]).take 3)
          (List.map (fun p => p.1.chunk_id) [(c3doc "a" "1,2", (1 : ℚ))])) := by
    unfold ContextEnricher.enrich
    rw [if_neg (by decide)]
  have henrich : ContextEnricher.enrich c3search [(c3doc "a" "1,2", 1)] 3 =
      [(c3doc "a" "1,2", 1), (c3doc "b" "", 4/5), (c3doc "c" "", 4/5),
       (c3doc "d" "", 4/5), (c3doc "e" "", 4/5)] := by
    rw [hE, hadd]
    norm_num [List.map]
  exact ⟨henrich, by rw [henrich]; rfl, by norm_num⟩

/-! ### Claim about the workflow error path -/

/-- Model of `process_query` leaves the query untouched. -/
theorem process_query_query (c : Collaborators) (s : GraphState) :
    (GraphNodes.process_query c s).query = s.query := by
  simp only [GraphNodes.process_query]
  split <;> rfl

/-- Model of `retrieve_documents` leaves the query untouched. -/
theorem retrieve_documents_query (c : Collaborators) (s : GraphState) :
    (GraphNodes.retrieve_documents c s).query = s.query := by
  simp only [GraphNodes.retrieve_documents]
  split <;> rfl

/-- Model of `analyze_content` leaves the query untouched. -/
theorem analyze_content_query (c : Collaborators) (s : GraphState) :
    (GraphNodes.analyze_content c s).query = s.query := by
  simp only [GraphNodes.analyze_content]
  split <;> rfl

/-- Routing into `handle_error` on a state carrying an error yields the
best-effort response and never raises. -/
theorem extractResponse_handle_error {s : GraphState} {e : String}
    (he : s.error = some e) :
    extractResponse (GraphNodes.handle_error s) =
      .ok ⟨[], "An error occurred during analysis: " ++ e, [], 0,
           ["Analysis could not be completed due to an error"],
           if s.query = "" then "Unknown query" else s.query⟩ := by
  unfold GraphNodes.handle_error
  rw [he]
  unfold mkAnalysisResponse
  rw [if_pos (show (0 : ℚ) ≤ 0 ∧ (0 : ℚ) ≤ 100 by norm_num)]
  rfl

/-- C2: whenever the workflow reaches the error state — at whichever step
the exception occurred — the run still returns (never raises) an
`AnalysisResponse` whose reasoning carries the error message, whose
confidence is 0, and whose uncertainties hold the fixed note. -/
theorem C2_error_response (c : Collaborators) (req : AnalysisRequest) (e : String)
    (h : firstWorkflowError c req = some e) :
    runGraph c req =
      .ok ⟨[], "An error occurred during analysis: " ++ e, [], 0,
           ["Analysis could not be completed due to an error"],
           if req.query = "" then "Unknown query" else req.query⟩ := by
  unfold firstWorkflowError at h
  unfold runGraph
  by_cases h1 : errRouted (wfState1 c req) = true
  · rw [if_pos h1] at h ⊢
    have hq : (wfState1 c req).query = req.query := by
      unfold wfState1
      rw [process_query_query]
      rfl
    rw [extractResponse_handle_error h, hq]
  · rw [if_neg h1] at h ⊢
    by_cases h2 : errRouted (wfState2 c req) = true
    · rw [if_pos h2] at h ⊢
      have hq : (wfState2 c req).query = req.query := by
        unfold wfState2 wfState1
        rw [retrieve_documents_query, process_query_query]
        rfl
      rw [extractResponse_handle_error h, hq]
    · rw [if_neg h2] at h ⊢
      by_cases h3 : errRouted (wfState3 c req) = true
      · rw [if_pos h3] at h ⊢
        have hq : (wfState3 c req).query = req.query := by
          unfold wfState3 wfState2 wfState1
          rw [analyze_content_query, retrieve_documents_query, process_query_query]
          rfl
        rw [extractResponse_handle_error h, hq]
      · rw [if_neg h3] at h
        exact Option.noConfusion h

/-- C2 witness: a run whose retrieval stage raises reaches the error state
and produces the best-effort response. -/
theorem C2_witness :
    firstWorkflowError c2collabs c2req = some "boom" ∧
    runGraph c2collabs c2req =
      .ok ⟨[], "An error occurred during analysis: boom", [], 0,
           ["Analysis could not be completed due to an error"],
           if c2req.query = "" then "Unknown query" else c2req.query⟩ :=
  ⟨by decide, C2_error_response c2collabs c2req "boom" (by decide)⟩

/-- C10 witness: a concrete run of `parse` on prose produces the fallback
response carrying the query. -/
theorem C10_witness :
    (StructuredOutputParser.parse "prose" "myquery" =
      .ok ⟨[], "Failed to parse response: No JSON object found in text. Raw output: prose",
           [], 0, [], "myquery"⟩) ∧
    ("Failed to parse response: No JSON object found in text. Raw output: prose" ≠ "myquery" →
      (⟨[], "Failed to parse response: No JSON object found in text. Raw output: prose",
        [], 0, [], "myquery"⟩ : AnalysisResponse).query = "myquery") :=
  ⟨by decide, fun _ => C10_query_preserved "prose" "myquery" _ (by decide)⟩

end RFP
